import Mathlib

/-!
Verification development for the LabSniper request-racing scheduler.

Shallow embedding of the core of `labsniper/schedule.py` and
`labsniper/reservation.py`:

* Python numbers (`int | float`) are modelled as `Rat`; the code only
  subtracts and compares them, so exact rationals are adequate.
* A Python value that may fail an `isinstance(param, (int, float))` check is
  modelled by `PyParam` (a number, or a non-numeric value carrying its type
  name for the error message).
* Raised Python exceptions are modelled by `Except PyErr`; `PyErr.message`
  is the string `str(e)` produced by each exception.  (For `AttributeError`
  the exact CPython rendering is abbreviated to the attribute name; no claim
  depends on that text.)
* Python dicts are modelled as association lists (`Dict`) where
  `Dict.merge a b` is the literal `{**a, **b}` (entries of `b` win) and
  `Dict.lookup` retrieves the effective value of a key.
* The thread pool of `MultiReservationScheduler.execute` is modelled by a
  `completion order`: the list of job indices in the order `as_completed`
  yields their futures.  Network-dependent behaviour (the body of
  `ReservationService.go`) is a parameter of the model.
-/

namespace LabSniper

/-- Model of the Python exceptions raised by the embedded code, each carrying
the text that `str(e)` would produce. -/
inductive PyErr where
  | typeError (msg : String)
  | valueError (msg : String)
  | runtimeError (msg : String)
  | attributeError (attr : String)
deriving Repr, DecidableEq

/-- The string `str(e)` of a modelled Python exception. -/
def PyErr.message : PyErr → String
  | .typeError m => m
  | .valueError m => m
  | .runtimeError m => m
  | .attributeError a => "AttributeError: " ++ a

/-- A Python value submitted to `Intervene.param_check`: either a number
(`int | float`, modelled as `Rat`) or a non-numeric value carrying the text
`str(type(param))` used in the error message. -/
inductive PyParam where
  | num (x : Rat)
  | nonNum (typeName : String)
deriving Repr, DecidableEq

instance : Inhabited PyParam := ⟨.num 0⟩

/-- Constant `TICKET_ALIVE_SECONDS` of `labsniper/schedule.py`. -/
def TICKET_ALIVE_SECONDS : Rat := 30

/-- Constant `CONNECTION_ALIVE_SECONDS` of `labsniper/schedule.py`. -/
def CONNECTION_ALIVE_SECONDS : Rat := 10

/-- A validated immutable plan: the four attributes stored by
`Intervene.__init__` (schedule.py lines 36-39) on success. -/
structure Intervene where
  target_timestamp : Rat
  creation_advance : Rat
  submission_advance : Rat
  time_offset : Rat
deriving Repr, DecidableEq

/-- The four keyword arguments of `Intervene.__init__` before validation. -/
structure InterveneArgs where
  target_timestamp : PyParam
  creation_advance : PyParam
  submission_advance : PyParam
  time_offset : PyParam
deriving Repr, DecidableEq

instance : Inhabited InterveneArgs := ⟨default, default, default, default⟩

/-- Static method `Intervene.param_check` (schedule.py lines 41-53): rejects
non-numbers with `TypeError` and, unless `allow_negative`, negative numbers
with `ValueError`.  The embedding returns the checked number (the Python
method returns `None`; the value itself is unchanged). -/
def Intervene.param_check (param : PyParam) (param_name : String)
    (allow_negative : Bool) : Except PyErr Rat :=
  match param with
  | .nonNum typeName =>
      .error (.typeError
        ("Invalid parameter. Detail:\n参数无效，给定的" ++ param_name ++
          "必须为整数或浮点数，不能为" ++ typeName ++ "."))
  | .num x =>
      if x < 0 ∧ allow_negative = false then
        .error (.valueError
          ("Invalid parameter. Detail:\n参数无效，给定的" ++ param_name ++
            "不能为负数。"))
      else
        .ok x

/-- Constructor `Intervene.__init__` (schedule.py lines 14-39): checks each
parameter with `param_check`, then the ticket-liveness and
connection-liveness bounds, and on success stores the four values
unchanged. -/
def Intervene.mk? (a : InterveneArgs) : Except PyErr Intervene := do
  let t ← Intervene.param_check a.target_timestamp "目标时间戳" false
  let c ← Intervene.param_check a.creation_advance "创建请求的提前秒数" false
  let s ← Intervene.param_check a.submission_advance "提交请求的提前秒数" false
  let o ← Intervene.param_check a.time_offset "服务器时间校正偏移量" true
  if c - s > TICKET_ALIVE_SECONDS then
    throw (.valueError
      "Invalid parameter. Detail:\n给定的创建请求和提交请求的时间间隔过长，建议设置为30秒以内。")
  else if s > CONNECTION_ALIVE_SECONDS then
    throw (.valueError
      "Invalid parameter. Detail:\n给定的提交请求的提前时间过长，建议设置为10秒以内。")
  else
    return ⟨t, c, s, o⟩

example : Intervene.mk? ⟨.num 100, .num 5, .num 1, .num 0⟩ = .ok ⟨100, 5, 1, 0⟩ := by
  norm_num [Intervene.mk?, Intervene.param_check, TICKET_ALIVE_SECONDS,
    CONNECTION_ALIVE_SECONDS, bind, Except.bind, pure, Except.pure, throw,
    throwThe, MonadExceptOf.throw]

example : (Intervene.mk? ⟨.num 100, .num 5, .num 11, .num 0⟩).isOk = false := by
  norm_num [Intervene.mk?, Intervene.param_check, TICKET_ALIVE_SECONDS,
    CONNECTION_ALIVE_SECONDS, bind, Except.bind, pure, Except.pure, throw,
    throwThe, MonadExceptOf.throw, Except.isOk, Except.toBool]

example : (Intervene.mk? ⟨.num 100, .num 35, .num 1, .num 0⟩).isOk = false := by
  norm_num [Intervene.mk?, Intervene.param_check, TICKET_ALIVE_SECONDS,
    CONNECTION_ALIVE_SECONDS, bind, Except.bind, pure, Except.pure, throw,
    throwThe, MonadExceptOf.throw, Except.isOk, Except.toBool]

example : (Intervene.mk? ⟨.num (-1), .num 0, .num 0, .num 0⟩).isOk = false := by
  norm_num [Intervene.mk?, Intervene.param_check, TICKET_ALIVE_SECONDS,
    CONNECTION_ALIVE_SECONDS, bind, Except.bind, pure, Except.pure, throw,
    throwThe, MonadExceptOf.throw, Except.isOk, Except.toBool]

/-- Method `Intervene.get_server_time` (schedule.py lines 55-56): the local
clock reading plus the configured offset.  The local clock value is passed
explicitly (`time.time()` is an effect). -/
def Intervene.get_server_time (iv : Intervene) (local_time : Rat) : Rat :=
  local_time + iv.time_offset

/-- Method `Intervene.wait_until` (schedule.py lines 58-63).  The local clock
is modelled as a sequence `clock : Nat → Rat` of successive `time.time()`
readings (tick `k` is the reading at the k-th loop check; no monotonicity is
assumed, modelling jitter).  `fuel` bounds the number of loop iterations the
model runs: the result is `none` when the loop is still waiting after `fuel`
checks, and `some (ret, sleeps)` when the loop exits at tick `ret`, having
performed the `time.sleep` calls recorded in `sleeps` (in order, one entry
per iteration that slept). -/
def Intervene.wait_until_run (iv : Intervene) (target_timestamp : Rat)
    (poll_interval : Rat) (clock : Nat → Rat) :
    Nat → Nat → Option (Nat × List Rat)
  | 0, _ => none
  | fuel + 1, k =>
      if target_timestamp - iv.get_server_time (clock k) ≤ 0 then
        some (k, [])
      else
        match iv.wait_until_run target_timestamp poll_interval clock fuel (k + 1) with
        | none => none
        | some (ret, sleeps) => some (ret, poll_interval :: sleeps)

/-- Method `Intervene.pause_before_request_creation` (schedule.py lines
65-69): wait until `target_timestamp - creation_advance` with the fixed poll
interval `min(1, creation_advance / 10)`. -/
def Intervene.pause_before_request_creation_run (iv : Intervene)
    (clock : Nat → Rat) (fuel : Nat) : Option (Nat × List Rat) :=
  iv.wait_until_run (iv.target_timestamp - iv.creation_advance)
    (min 1 (iv.creation_advance / 10)) clock fuel 0

/-- Method `Intervene.pause_before_request_submission` (schedule.py lines
71-75): wait until `target_timestamp - submission_advance` with the fixed
poll interval `min(0.001, submission_advance / 100)`. -/
def Intervene.pause_before_request_submission_run (iv : Intervene)
    (clock : Nat → Rat) (fuel : Nat) : Option (Nat × List Rat) :=
  iv.wait_until_run (iv.target_timestamp - iv.submission_advance)
    (min (1 / 1000) (iv.submission_advance / 100)) clock fuel 0

/-- State stored by `MultiReservationScheduler.__init__` (schedule.py lines
90-105): the per-attempt `Intervene` keyword-argument sets and the job
count.  (`service_args` is shared by all attempts and carries the
network-facing collaborators, which the model abstracts.) -/
structure MultiReservationScheduler where
  intervene_args_all : List InterveneArgs
  num_jobs : Nat
deriving Repr, DecidableEq

/-- Constructor `MultiReservationScheduler.__init__` (schedule.py lines
79-109): builds one `Intervene` argument set per entry of
`submission_advances` — all sharing `target_timestamp`, `creation_advance`
and `time_offset` — and raises `ValueError` when the resulting job list is
empty.  No plan validation happens here: `Intervene` itself is only
constructed later, inside `worker`. -/
def MultiReservationScheduler.mk? (target_timestamp : PyParam)
    (creation_advance : PyParam) (submission_advances : List PyParam)
    (time_offset : PyParam) : Except PyErr MultiReservationScheduler :=
  let intervene_args_all := submission_advances.map
    (fun submission_advance =>
      ⟨target_timestamp, creation_advance, submission_advance, time_offset⟩)
  let num_jobs := intervene_args_all.length
  if num_jobs = 0 then
    .error (.valueError "Invalid parameter. Detail:\n没有可执行的任务，请检查输入参数。")
  else
    .ok ⟨intervene_args_all, num_jobs⟩

/-- Body of the `try` block of `MultiReservationScheduler.worker`
(schedule.py lines 112-116): construct the `Intervene` from its arguments,
then run the reservation service (`ReservationService(**service_args)`,
`set_intervene`, `go`) with it.  The service part performs network I/O, so
it is a parameter of the model; `go` returns `None` on success, hence
`Unit`. -/
def attemptBody (intervene_args : InterveneArgs)
    (service : Intervene → Except PyErr Unit) : Except PyErr Unit := do
  let intervene ← Intervene.mk? intervene_args
  service intervene

/-- Method `MultiReservationScheduler.worker` (schedule.py lines 111-118):
run the attempt body and catch any raised exception, returning `str(e)` for
a failure and the return value of `go()` (Python `None`, modelled as
`none`) for a success. -/
def MultiReservationScheduler.worker (intervene_args : InterveneArgs)
    (service : Intervene → Except PyErr Unit) : Option String :=
  match attemptBody intervene_args service with
  | .ok _ => none
  | .error e => some e.message

/-- The fan-in loop of `MultiReservationScheduler.execute` (schedule.py
lines 133-137): `results = [None] * n`, then `results[idx] = future.result()`
for each future in completion order.  `out idx` is the worker result of job
`idx` and `order` lists the job indices in the order `as_completed` yields
them. -/
def fillResults {α : Type} (out : Nat → α) (n : Nat) (order : List Nat) :
    List (Option α) :=
  order.foldl (fun results idx => results.set idx (some (out idx)))
    (List.replicate n none)

/-- Method `MultiReservationScheduler.execute` (schedule.py lines 120-141):
submits one `worker` job per entry of `intervene_args_all` and fills the
local `results` array in completion order, printing each result.  The first
component is the final contents of `results`; the second is the Python
return value of `execute`, which is `None` (the method is annotated
`-> None` and has no return statement). -/
def MultiReservationScheduler.execute (sched : MultiReservationScheduler)
    (service : Nat → Intervene → Except PyErr Unit) (order : List Nat) :
    List (Option (Option String)) × Option (List (Option String)) :=
  (fillResults
      (fun i => MultiReservationScheduler.worker
        (sched.intervene_args_all.getD i default) (service i))
      sched.num_jobs order,
    none)

/-- A Python value appearing in a request form: a string or an integer
(timestamps from `get_timestamp` are ints; everything else in the embedded
dicts is a string). -/
inductive PyV where
  | str (s : String)
  | int (n : Int)
deriving Repr, DecidableEq

/-- A Python dict, as the association list of its entries. -/
abbrev Dict := List (String × PyV)

/-- The dict literal `{**a, **b}`: entries of `b` override those of `a`.
Represented so that `Dict.lookup` finds `b`'s entries first. -/
def Dict.merge (a b : Dict) : Dict := b ++ a

/-- The effective value of key `k` in dict `d` (`d[k]`). -/
def Dict.lookup (d : Dict) (k : String) : Option PyV := List.lookup k d

/-- Module constant `ENABLE_HACK` of `labsniper/reservation.py` (line 19):
`os.getenv("LABSNIPER_ENABLE_HACK", "") == "1"`.  The environment variable's
value is passed explicitly (`none` when unset). -/
def ENABLE_HACK (labsniper_enable_hack : Option String) : Bool :=
  labsniper_enable_hack.getD "" == "1"

/-- State stored by `Reservation.__init__` (reservation.py lines 26-48):
start/end timestamps, the form data (`self.form.data`), and the normalized
`component_id` (empty string when not given). -/
structure Reservation where
  dtstart : Int
  dtend : Int
  form_data : Dict
  component_id : String
deriving Repr, DecidableEq

/-- Method `Reservation.get_request_creation_data` (reservation.py lines
50-51): `{**self.form.data, **{"dtstart": ..., "dtend": ...}}`. -/
def Reservation.get_request_creation_data (r : Reservation) : Dict :=
  Dict.merge r.form_data [("dtstart", .int r.dtstart), ("dtend", .int r.dtend)]

/-- Method `Reservation.get_request_submission_data` (reservation.py lines
53-57): `{"component_id": ...}` when `component_id` is non-empty, else
`{}`. -/
def Reservation.get_request_submission_data (r : Reservation) : Dict :=
  if r.component_id ≠ "" then [("component_id", .str r.component_id)] else []

/-- State stored by `Hack.__init__` (reservation.py lines 61-78): optional
override timestamps and the normalized `current_user_id` (empty string when
not given). -/
structure Hack where
  dtstart : Option Int
  dtend : Option Int
  current_user_id : String
deriving Repr, DecidableEq

/-- Method `Hack.get_request_creation_data` (reservation.py lines 80-88):
empty unless `ENABLE_HACK`; otherwise the subset of
`{"dtstart", "dtend"}` entries that were configured. -/
def Hack.get_request_creation_data (enable_hack : Bool) (h : Hack) : Dict :=
  if enable_hack = false then []
  else
    (match h.dtstart with
      | some v => [("dtstart", PyV.int v)]
      | none => []) ++
    (match h.dtend with
      | some v => [("dtend", PyV.int v)]
      | none => [])

/-- Method `Hack.get_request_submission_data` (reservation.py lines 90-96):
empty unless `ENABLE_HACK`; otherwise `{"currentUserId": ...}` when
`current_user_id` is non-empty. -/
def Hack.get_request_submission_data (enable_hack : Bool) (h : Hack) : Dict :=
  if enable_hack = false then []
  else if h.current_user_id ≠ "" then
    [("currentUserId", .str h.current_user_id)]
  else []

/-- State of a `ReservationService` (reservation.py lines 176-192 and
265-274) relevant to payload construction: the collaborators given to the
constructor, and the three attributes `request_data`, `ticket`, `ticket_id`,
which exist (`some`) exactly when `create_request` has completed
successfully (they are assigned only at reservation.py lines 272-274, just
before the successful return). -/
structure ReservationService where
  reservation : Reservation
  hack : Option Hack
  request_data : Option Dict
  ticket : Option String
  ticket_id : Option String
deriving Repr, DecidableEq

/-- The creation-phase payload of `ReservationService.create_request`
(reservation.py lines 238-240): the reservation's creation data, merged with
the hack's creation data when a hack object is present. -/
def ReservationService.creation_data (enable_hack : Bool)
    (s : ReservationService) : Dict :=
  let data := s.reservation.get_request_creation_data
  match s.hack with
  | none => data
  | some h => Dict.merge data (h.get_request_creation_data enable_hack)

/-- The pure prefix of `ReservationService.submit_request` (reservation.py
lines 330-355): build `form_submit` and `params` before any connection is
opened (`sio.connect` only happens at line 400).  Accessing a
`create_request`-owned attribute that was never assigned raises
`AttributeError`; the access order follows the source (`self.request_data`
first, then `self.ticket_id`, then `self.ticket`).  Returns
`(form_submit, params)`. -/
def ReservationService.submit_request_prep (enable_hack : Bool)
    (s : ReservationService) : Except PyErr (Dict × Dict) :=
  match s.request_data with
  | none => .error (.attributeError "request_data")
  | some request_data =>
    match s.ticket_id with
    | none => .error (.attributeError "ticket_id")
    | some ticket_id =>
      match s.ticket with
      | none => .error (.attributeError "ticket")
      | some ticket =>
        let form_submit :=
          Dict.merge
            (Dict.merge
              (Dict.merge request_data s.reservation.get_request_creation_data)
              s.reservation.get_request_submission_data)
            [("ticketId", .str ticket_id)]
        let form_submit :=
          match s.hack with
          | none => form_submit
          | some h =>
              Dict.merge form_submit (h.get_request_submission_data enable_hack)
        let params : Dict :=
          [("userId", .str ""), ("ticket", .str ticket),
            ("ticketId", .str ticket_id)]
        .ok (form_submit, params)

/-! General lemmas about the embedding. -/

/-- Key lookup distributes over dict merge: the right dict wins. -/
lemma Dict.lookup_merge (a b : Dict) (k : String) :
    (Dict.merge a b).lookup k = (b.lookup k).or (a.lookup k) := by
  induction b with
  | nil => simp [Dict.merge, Dict.lookup]
  | cons hd tl ih =>
      obtain ⟨k2, v⟩ := hd
      simp only [Dict.merge, Dict.lookup, List.cons_append, List.lookup] at *
      cases hk : k == k2 <;> simp [hk, ih]

/-- One position of the fan-in fold: index `i` holds `out i` once `i` has
completed (appears in `order`) and is in range, and is untouched
otherwise. -/
lemma foldl_set_getElem? {α : Type} (out : Nat → α) (order : List Nat)
    (init : List (Option α)) (i : Nat) :
    (order.foldl (fun results idx => results.set idx (some (out idx))) init)[i]? =
      if i ∈ order ∧ i < init.length then some (some (out i)) else init[i]? := by
  induction order generalizing init with
  | nil => simp
  | cons a rest ih =>
      simp only [List.foldl_cons]
      rw [ih]
      simp only [List.length_set, List.getElem?_set, List.mem_cons]
      by_cases hlen : i < init.length
      · by_cases hmem : i ∈ rest
        · simp [hmem, hlen]
        · by_cases hai : a = i
          · subst hai
            simp [hmem, hlen]
          · simp only [hmem, hlen, Ne.symm hai, false_and, and_false, if_false,
              and_true, if_neg hai]
            simp [Ne.symm hai]
      · have hnone : init[i]? = none := List.getElem?_eq_none (le_of_not_lt hlen)
        by_cases hai : a = i
        · subst hai
          simp [hlen, hnone]
        · simp only [hlen, and_false, if_false, hnone, if_neg hai]

/-- When every job index below `n` completes exactly once, the fan-in fold
produces the fully filled, index-aligned results list. -/
lemma fillResults_eq {α : Type} (out : Nat → α) (n : Nat) (order : List Nat)
    (h : order.Perm (List.range n)) :
    fillResults out n order = (List.range n).map (fun i => some (out i)) := by
  apply List.ext_getElem?
  intro i
  rw [fillResults, foldl_set_getElem?, List.getElem?_map]
  simp only [List.length_replicate, List.getElem?_replicate, h.mem_iff,
    List.mem_range]
  by_cases hi : i < n
  · simp [hi, List.getElem?_range hi]
  · simp [hi, List.getElem?_eq_none
      (by simpa [List.length_range] using le_of_not_lt hi :
        (List.range n).length ≤ i)]

/-- The wait loop only exits at a tick whose computed server time has
reached the target. -/
lemma wait_until_run_exit_le {iv : Intervene} {target_timestamp poll_interval : Rat}
    {clock : Nat → Rat} :
    ∀ {fuel start ret : Nat} {sleeps : List Rat},
      iv.wait_until_run target_timestamp poll_interval clock fuel start =
        some (ret, sleeps) →
      target_timestamp ≤ iv.get_server_time (clock ret) := by
  intro fuel
  induction fuel with
  | zero => intro start ret sleeps h; simp [Intervene.wait_until_run] at h
  | succ fuel ih =>
      intro start ret sleeps h
      rw [Intervene.wait_until_run] at h
      by_cases hc : target_timestamp - iv.get_server_time (clock start) ≤ 0
      · rw [if_pos hc] at h
        obtain ⟨rfl, -⟩ : start = ret ∧ sleeps = [] := by
          simpa using h
        linarith
      · rw [if_neg hc] at h
        cases hrec : iv.wait_until_run target_timestamp poll_interval clock fuel
            (start + 1) with
        | none => rw [hrec] at h; simp at h
        | some p =>
            obtain ⟨ret2, sleeps2⟩ := p
            rw [hrec] at h
            simp only [Option.some.injEq, Prod.mk.injEq] at h
            obtain ⟨rfl, -⟩ := h
            exact ih hrec

/-- Every `time.sleep` performed by the wait loop uses the single
`poll_interval` the loop was called with. -/
lemma wait_until_run_sleeps_fixed {iv : Intervene}
    {target_timestamp poll_interval : Rat} {clock : Nat → Rat} :
    ∀ {fuel start ret : Nat} {sleeps : List Rat},
      iv.wait_until_run target_timestamp poll_interval clock fuel start =
        some (ret, sleeps) →
      ∀ x ∈ sleeps, x = poll_interval := by
  intro fuel
  induction fuel with
  | zero => intro start ret sleeps h; simp [Intervene.wait_until_run] at h
  | succ fuel ih =>
      intro start ret sleeps h
      rw [Intervene.wait_until_run] at h
      by_cases hc : target_timestamp - iv.get_server_time (clock start) ≤ 0
      · rw [if_pos hc] at h
        obtain ⟨-, rfl⟩ : start = ret ∧ sleeps = [] := by simpa using h
        simp
      · rw [if_neg hc] at h
        cases hrec : iv.wait_until_run target_timestamp poll_interval clock fuel
            (start + 1) with
        | none => rw [hrec] at h; simp at h
        | some p =>
            obtain ⟨ret2, sleeps2⟩ := p
            rw [hrec] at h
            simp only [Option.some.injEq, Prod.mk.injEq] at h
            obtain ⟨-, rfl⟩ := h
            intro x hx
            rcases List.mem_cons.mp hx with rfl | hx2
            · rfl
            · exact ih hrec x hx2

/-- Evaluation of `Intervene.__init__` on four numeric parameters: the
checks fire in source order (negative target, negative creation advance,
negative submission advance, ticket-liveness gap, connection-liveness
bound), and otherwise the four values are stored unchanged. -/
lemma intervene_mk?_num (t c s o : Rat) :
    Intervene.mk? ⟨.num t, .num c, .num s, .num o⟩ =
      if t < 0 then
        .error (.valueError
          "Invalid parameter. Detail:\n参数无效，给定的目标时间戳不能为负数。")
      else if c < 0 then
        .error (.valueError
          "Invalid parameter. Detail:\n参数无效，给定的创建请求的提前秒数不能为负数。")
      else if s < 0 then
        .error (.valueError
          "Invalid parameter. Detail:\n参数无效，给定的提交请求的提前秒数不能为负数。")
      else if c - s > TICKET_ALIVE_SECONDS then
        .error (.valueError
          "Invalid parameter. Detail:\n给定的创建请求和提交请求的时间间隔过长，建议设置为30秒以内。")
      else if s > CONNECTION_ALIVE_SECONDS then
        .error (.valueError
          "Invalid parameter. Detail:\n给定的提交请求的提前时间过长，建议设置为10秒以内。")
      else
        .ok ⟨t, c, s, o⟩ := by
  simp only [Intervene.mk?, Intervene.param_check, bind, Except.bind, pure,
    Except.pure, throw, throwThe, MonadExceptOf.throw, eq_self_iff_true,
    and_true, and_false]
  split_ifs <;> simp_all [Except.bind] <;>
    rw [if_neg (by linarith), if_neg (by linarith)]

/-- A non-numeric target timestamp fails its `param_check` immediately:
no later check runs. -/
lemma intervene_mk?_nonNum_t (ty : String) (cp sp op : PyParam) :
    Intervene.mk? ⟨.nonNum ty, cp, sp, op⟩ =
      .error (.typeError
        ("Invalid parameter. Detail:\n参数无效，给定的目标时间戳必须为整数或浮点数，不能为" ++
          ty ++ ".")) := rfl

/-- A non-numeric creation advance fails after the target-timestamp
check. -/
lemma intervene_mk?_nonNum_c (t : Rat) (ty : String) (sp op : PyParam) :
    Intervene.mk? ⟨.num t, .nonNum ty, sp, op⟩ =
      if t < 0 then
        .error (.valueError
          "Invalid parameter. Detail:\n参数无效，给定的目标时间戳不能为负数。")
      else
        .error (.typeError
          ("Invalid parameter. Detail:\n参数无效，给定的创建请求的提前秒数必须为整数或浮点数，不能为" ++
            ty ++ ".")) := by
  simp only [Intervene.mk?, Intervene.param_check, bind, Except.bind,
    eq_self_iff_true, and_true]
  split_ifs <;> rfl

/-- A non-numeric submission advance fails after the two preceding
checks. -/
lemma intervene_mk?_nonNum_s (t c : Rat) (ty : String) (op : PyParam) :
    Intervene.mk? ⟨.num t, .num c, .nonNum ty, op⟩ =
      if t < 0 then
        .error (.valueError
          "Invalid parameter. Detail:\n参数无效，给定的目标时间戳不能为负数。")
      else if c < 0 then
        .error (.valueError
          "Invalid parameter. Detail:\n参数无效，给定的创建请求的提前秒数不能为负数。")
      else
        .error (.typeError
          ("Invalid parameter. Detail:\n参数无效，给定的提交请求的提前秒数必须为整数或浮点数，不能为" ++
            ty ++ ".")) := by
  simp only [Intervene.mk?, Intervene.param_check, bind, Except.bind,
    eq_self_iff_true, and_true]
  split_ifs <;> rfl

/-- A non-numeric time offset fails after the three preceding checks. -/
lemma intervene_mk?_nonNum_o (t c s : Rat) (ty : String) :
    Intervene.mk? ⟨.num t, .num c, .num s, .nonNum ty⟩ =
      if t < 0 then
        .error (.valueError
          "Invalid parameter. Detail:\n参数无效，给定的目标时间戳不能为负数。")
      else if c < 0 then
        .error (.valueError
          "Invalid parameter. Detail:\n参数无效，给定的创建请求的提前秒数不能为负数。")
      else if s < 0 then
        .error (.valueError
          "Invalid parameter. Detail:\n参数无效，给定的提交请求的提前秒数不能为负数。")
      else
        .error (.typeError
          ("Invalid parameter. Detail:\n参数无效，给定的服务器时间校正偏移量必须为整数或浮点数，不能为" ++
            ty ++ ".")) := by
  simp only [Intervene.mk?, Intervene.param_check, bind, Except.bind,
    eq_self_iff_true, and_true]
  split_ifs <;> rfl

/-! Claim theorems. -/

/-- Claim C6: for every target instant and poll interval, `wait_until`
returns only when the computed server time (local clock reading plus
offset) is at least the target: whenever the re-checking loop exits — for
any poll interval, any iteration budget, and any clock behaviour, including
jitter — the server time at the exit check has reached the target. -/
theorem wait_until_no_early_return (iv : Intervene)
    (target_timestamp poll_interval : Rat) (clock : Nat → Rat)
    (fuel start ret : Nat) (sleeps : List Rat)
    (h : iv.wait_until_run target_timestamp poll_interval clock fuel start =
      some (ret, sleeps)) :
    target_timestamp ≤ iv.get_server_time (clock ret) :=
  wait_until_run_exit_le h

/-- Witness for C6 at a concrete run: offset 3, local clock k ↦ k,
target 7; the loop exits at tick 4, where the server time is 4 + 3 = 7. -/
theorem wait_until_no_early_return_witness :
    (7 : Rat) ≤ Intervene.get_server_time ⟨100, 5, 1, 3⟩ ((fun k => (k : Rat)) 4) :=
  wait_until_no_early_return ⟨100, 5, 1, 3⟩ 7 (1/2) (fun k => (k : Rat)) 6 0 4
    [1/2, 1/2, 1/2, 1/2]
    (by norm_num [Intervene.wait_until_run, Intervene.get_server_time])

/-- Claim C7 (amended): each waiting loop polls at a fixed interval
computed once from the configured advance — `min(1, creation_advance/10)`
for the creation-phase wait and `min(0.001, submission_advance/100)` for
the submission-phase wait.  Every sleep of a run uses exactly that
interval; it is not recomputed from the remaining budget and does not
shrink as the remaining time shrinks. -/
theorem pause_poll_intervals_fixed (iv : Intervene) (clock : Nat → Rat)
    (fuel ret : Nat) (sleeps : List Rat) :
    (iv.pause_before_request_creation_run clock fuel = some (ret, sleeps) →
      ∀ x ∈ sleeps, x = min 1 (iv.creation_advance / 10)) ∧
    (iv.pause_before_request_submission_run clock fuel = some (ret, sleeps) →
      ∀ x ∈ sleeps, x = min (1 / 1000) (iv.submission_advance / 100)) :=
  ⟨fun h => wait_until_run_sleeps_fixed h,
    fun h => wait_until_run_sleeps_fixed h⟩

/-- Witness for C7 (amended) at a concrete run with creation_advance 2:
the first sleep of the run equals the fixed interval min(1, 2/10) = 1/5. -/
theorem pause_poll_intervals_fixed_witness : (1/5 : Rat) = min 1 ((2 : Rat) / 10) := by
  have h := (pause_poll_intervals_fixed ⟨112, 2, 1, 0⟩
      (fun k => 100 + 4 * (k : Rat)) 10 3 [1/5, 1/5, 1/5]).1
    (by norm_num [Intervene.pause_before_request_creation_run,
      Intervene.wait_until_run, Intervene.get_server_time])
    (1/5) (by simp)
  simpa using h

/-- Counterexample to claim C7 as stated: with creation_advance = 2 and
10 seconds of remaining budget at the first check (shrinking to 6 s and
2 s at the next checks), the creation wait sleeps 1/5 s at every
iteration — the fixed min(1, creation_advance/10) — whereas the claimed
adaptive interval min(1, remainingBudget/10) would be 1 at the first
check.  The interval neither equals the claimed formula nor shrinks. -/
theorem creation_poll_interval_not_adaptive :
    Intervene.pause_before_request_creation_run ⟨112, 2, 1, 0⟩
        (fun k => 100 + 4 * (k : Rat)) 10 =
      some (3, [1/5, 1/5, 1/5]) ∧
    (1/5 : Rat) ≠ min 1 ((10 : Rat) / 10) := by
  constructor
  · norm_num [Intervene.pause_before_request_creation_run,
      Intervene.wait_until_run, Intervene.get_server_time]
  · norm_num

/-- Claim C8: on a session where `create_request` has not completed
successfully — so none of `request_data`, `ticket`, `ticket_id` was ever
assigned — `submit_request` raises `AttributeError` while still building
the payload, before the submission connection is opened; the out-of-order
transition is rejected, not silently accepted. -/
theorem submit_before_create_rejected (enable_hack : Bool)
    (s : ReservationService) (h1 : s.request_data = none)
    (h2 : s.ticket = none) (h3 : s.ticket_id = none) :
    s.submit_request_prep enable_hack = .error (.attributeError "request_data") := by
  unfold ReservationService.submit_request_prep
  rw [h1]

/-- Witness for C8 at a concrete fresh session. -/
theorem submit_before_create_rejected_witness :
    ReservationService.submit_request_prep false ⟨⟨10, 20, [], ""⟩, none, none, none, none⟩ =
      .error (.attributeError "request_data") :=
  submit_before_create_rejected false ⟨⟨10, 20, [], ""⟩, none, none, none, none⟩
    rfl rfl rfl

/-- Claim C5: the merged submission form always carries `ticketId` equal to
the ticket id issued by phase 1 (`self.ticket_id`), with that value taking
precedence over any caller-supplied entry for the key; the later hack merge
cannot override it because hack submission data never contains a
`ticketId` key. -/
theorem submit_form_ticket_id_wins (enable_hack : Bool)
    (s : ReservationService) (request_data : Dict) (ticket ticket_id : String)
    (h1 : s.request_data = some request_data)
    (h2 : s.ticket_id = some ticket_id) (h3 : s.ticket = some ticket) :
    ∃ form_submit params,
      s.submit_request_prep enable_hack = .ok (form_submit, params) ∧
      form_submit.lookup "ticketId" = some (.str ticket_id) := by
  have hbase : ∀ d : Dict,
      (Dict.merge d [("ticketId", PyV.str ticket_id)]).lookup "ticketId" =
        some (.str ticket_id) := by
    intro d
    rw [Dict.lookup_merge]
    simp [Dict.lookup, List.lookup]
  have hhack : ∀ hk : Hack,
      (hk.get_request_submission_data enable_hack).lookup "ticketId" = none := by
    intro hk
    unfold Hack.get_request_submission_data
    split_ifs <;> simp [Dict.lookup, List.lookup]
  simp only [ReservationService.submit_request_prep, h1, h2, h3]
  cases hh : s.hack with
  | none => exact ⟨_, _, rfl, hbase _⟩
  | some hk =>
      refine ⟨_, _, rfl, ?_⟩
      rw [Dict.lookup_merge, hhack hk]
      simpa using hbase _

/-- Witness for C5 at a concrete session whose caller form even smuggles in
its own conflicting `ticketId` entry; the issued ticket id `T1` wins. -/
theorem submit_form_ticket_id_wins_witness :
    ∃ form_submit params,
      ReservationService.submit_request_prep true
          ⟨⟨10, 20, [("ticketId", .str "EVIL"), ("name", .str "n")], "c7"⟩,
            some ⟨some 5, some 6, "u9"⟩,
            some [("ticketId", .str "T1"), ("f1", .str "v1")],
            some "TK", some "T1"⟩ =
        .ok (form_submit, params) ∧
      form_submit.lookup "ticketId" = some (.str "T1") :=
  submit_form_ticket_id_wins true
    ⟨⟨10, 20, [("ticketId", .str "EVIL"), ("name", .str "n")], "c7"⟩,
      some ⟨some 5, some 6, "u9"⟩,
      some [("ticketId", .str "T1"), ("f1", .str "v1")],
      some "TK", some "T1"⟩
    [("ticketId", .str "T1"), ("f1", .str "v1")] "TK" "T1" rfl rfl rfl

/-- Claim C9: constructing `MultiReservationScheduler` with an empty
`submission_advances` collection raises `ValueError` at construction time
(in the model no worker function is invoked by the constructor at all);
with a non-empty collection of N advances it prepares exactly the N
per-attempt argument sets, all sharing `target_timestamp`,
`creation_advance` and `time_offset` and differing only in
`submission_advance`. -/
theorem scheduler_init_empty_and_plan_sets (target_timestamp creation_advance
    time_offset : PyParam) (submission_advances : List PyParam) :
    (submission_advances = [] →
      MultiReservationScheduler.mk? target_timestamp creation_advance
          submission_advances time_offset =
        .error (.valueError
          "Invalid parameter. Detail:\n没有可执行的任务，请检查输入参数。")) ∧
    (submission_advances ≠ [] →
      MultiReservationScheduler.mk? target_timestamp creation_advance
          submission_advances time_offset =
        .ok ⟨submission_advances.map
              (fun submission_advance =>
                ⟨target_timestamp, creation_advance, submission_advance,
                  time_offset⟩),
            submission_advances.length⟩) := by
  constructor
  · intro h
    subst h
    rfl
  · intro h
    simp [MultiReservationScheduler.mk?, List.length_eq_zero, h]

/-- Witness for C9: two advances produce the two expected plan argument
sets, in order. -/
theorem scheduler_init_empty_and_plan_sets_witness :
    MultiReservationScheduler.mk? (.num 100) (.num 8)
        [.num 0, .num (3/10)] (.num 0) =
      .ok ⟨[⟨.num 100, .num 8, .num 0, .num 0⟩,
            ⟨.num 100, .num 8, .num (3/10), .num 0⟩], 2⟩ := by
  have h := (scheduler_init_empty_and_plan_sets (.num 100) (.num 8) (.num 0)
      [.num 0, .num (3/10)]).2 (by simp)
  simpa using h

/-- Claim C10: when the LABSNIPER_ENABLE_HACK environment variable is not
set to "1", both `Hack` getters return empty mappings, and the creation and
submission payloads of a session with a hack object are identical to those
of the same session with no hack. -/
theorem hack_disabled_no_effect (labsniper_enable_hack : Option String)
    (henv : labsniper_enable_hack ≠ some "1") (hk : Hack) (r : Reservation)
    (request_data : Option Dict) (ticket ticket_id : Option String) :
    Hack.get_request_creation_data (ENABLE_HACK labsniper_enable_hack) hk = [] ∧
    Hack.get_request_submission_data (ENABLE_HACK labsniper_enable_hack) hk = [] ∧
    ReservationService.creation_data (ENABLE_HACK labsniper_enable_hack)
        ⟨r, some hk, request_data, ticket, ticket_id⟩ =
      ReservationService.creation_data (ENABLE_HACK labsniper_enable_hack)
        ⟨r, none, request_data, ticket, ticket_id⟩ ∧
    ReservationService.submit_request_prep (ENABLE_HACK labsniper_enable_hack)
        ⟨r, some hk, request_data, ticket, ticket_id⟩ =
      ReservationService.submit_request_prep (ENABLE_HACK labsniper_enable_hack)
        ⟨r, none, request_data, ticket, ticket_id⟩ := by
  have hfalse : ENABLE_HACK labsniper_enable_hack = false := by
    cases labsniper_enable_hack with
    | none => rfl
    | some v =>
        have hv : v ≠ "1" := fun hv => henv (by rw [hv])
        simp [ENABLE_HACK, hv]
  have hc : Hack.get_request_creation_data
      (ENABLE_HACK labsniper_enable_hack) hk = [] := by
    rw [hfalse]
    simp [Hack.get_request_creation_data]
  have hs : Hack.get_request_submission_data
      (ENABLE_HACK labsniper_enable_hack) hk = [] := by
    rw [hfalse]
    simp [Hack.get_request_submission_data]
  refine ⟨hc, hs, ?_, ?_⟩
  · simp [ReservationService.creation_data, hc, Dict.merge]
  · cases request_data with
    | none => rfl
    | some rd =>
        cases ticket_id with
        | none => rfl
        | some tid =>
            cases ticket with
            | none => rfl
            | some tk => simp [ReservationService.submit_request_prep, hs, Dict.merge]

/-- Witness for C10 with the environment variable unset and a fully
configured hack object. -/
theorem hack_disabled_no_effect_witness :
    Hack.get_request_creation_data (ENABLE_HACK none) ⟨some 5, some 6, "u9"⟩ = [] ∧
    Hack.get_request_submission_data (ENABLE_HACK none) ⟨some 5, some 6, "u9"⟩ = [] ∧
    ReservationService.creation_data (ENABLE_HACK none)
        ⟨⟨1, 2, [("name", .str "n")], "c"⟩, some ⟨some 5, some 6, "u9"⟩,
          some [("f", .str "v")], some "TK", some "T1"⟩ =
      ReservationService.creation_data (ENABLE_HACK none)
        ⟨⟨1, 2, [("name", .str "n")], "c"⟩, none,
          some [("f", .str "v")], some "TK", some "T1"⟩ ∧
    ReservationService.submit_request_prep (ENABLE_HACK none)
        ⟨⟨1, 2, [("name", .str "n")], "c"⟩, some ⟨some 5, some 6, "u9"⟩,
          some [("f", .str "v")], some "TK", some "T1"⟩ =
      ReservationService.submit_request_prep (ENABLE_HACK none)
        ⟨⟨1, 2, [("name", .str "n")], "c"⟩, none,
          some [("f", .str "v")], some "TK", some "T1"⟩ :=
  hack_disabled_no_effect none (by simp) ⟨some 5, some 6, "u9"⟩
    ⟨1, 2, [("name", .str "n")], "c"⟩ (some [("f", .str "v")])
    (some "TK") (some "T1")

/-- Claim C3 (amended): plan construction (`Intervene.__init__`) succeeds
exactly when all four parameters are numbers, the target timestamp and
both advances are non-negative, the creation-to-submission gap is at most
30 s and the submission advance is at most 10 s (the code also rejects a
negative target timestamp, which the claim's condition list omits); on
success the given values are stored unchanged, and every failure is a
validation error — a `TypeError` or `ValueError`, never any other
exception — raised before anything else happens (the constructor performs
no network activity in the model). -/
theorem intervene_validation (a : InterveneArgs) :
    ((Intervene.mk? a).isOk = true ↔
      ∃ t c s o : Rat, a = ⟨.num t, .num c, .num s, .num o⟩ ∧
        0 ≤ t ∧ 0 ≤ c ∧ 0 ≤ s ∧ c - s ≤ TICKET_ALIVE_SECONDS ∧
        s ≤ CONNECTION_ALIVE_SECONDS) ∧
    (∀ t c s o : Rat, a = ⟨.num t, .num c, .num s, .num o⟩ →
      ∀ iv, Intervene.mk? a = .ok iv → iv = ⟨t, c, s, o⟩) ∧
    (∀ e, Intervene.mk? a = .error e →
      (∃ m, e = .typeError m) ∨ (∃ m, e = .valueError m)) := by
  obtain ⟨tp, cp, sp, op⟩ := a
  refine ⟨⟨?_, ?_⟩, ?_, ?_⟩
  · intro hok
    cases tp with
    | nonNum ty => rw [intervene_mk?_nonNum_t] at hok; simp [Except.isOk, Except.toBool] at hok
    | num t =>
      cases cp with
      | nonNum ty =>
          rw [intervene_mk?_nonNum_c] at hok
          split_ifs at hok <;> simp [Except.isOk, Except.toBool] at hok
      | num c =>
        cases sp with
        | nonNum ty =>
            rw [intervene_mk?_nonNum_s] at hok
            split_ifs at hok <;> simp [Except.isOk, Except.toBool] at hok
        | num s =>
          cases op with
          | nonNum ty =>
              rw [intervene_mk?_nonNum_o] at hok
              split_ifs at hok <;> simp [Except.isOk, Except.toBool] at hok
          | num o =>
              rw [intervene_mk?_num] at hok
              split_ifs at hok with h1 h2 h3 h4 h5
              · simp [Except.isOk, Except.toBool] at hok
              · simp [Except.isOk, Except.toBool] at hok
              · simp [Except.isOk, Except.toBool] at hok
              · simp [Except.isOk, Except.toBool] at hok
              · simp [Except.isOk, Except.toBool] at hok
              · exact ⟨t, c, s, o, rfl, not_lt.mp h1, not_lt.mp h2,
                  not_lt.mp h3, not_lt.mp h4, not_lt.mp h5⟩
  · rintro ⟨t, c, s, o, heq, ht, hc, hs, hgap, hsub⟩
    cases heq
    rw [intervene_mk?_num, if_neg (not_lt.mpr ht), if_neg (not_lt.mpr hc),
      if_neg (not_lt.mpr hs), if_neg (not_lt.mpr hgap),
      if_neg (not_lt.mpr hsub)]
    rfl
  · rintro t c s o heq iv hok
    cases heq
    rw [intervene_mk?_num] at hok
    split_ifs at hok <;> simp_all
  · intro e he
    cases tp with
    | nonNum ty =>
        rw [intervene_mk?_nonNum_t] at he
        exact Or.inl ⟨_, by injection he with h; exact h.symm⟩
    | num t =>
      cases cp with
      | nonNum ty =>
          rw [intervene_mk?_nonNum_c] at he
          split_ifs at he
          · exact Or.inr ⟨_, by injection he with h; exact h.symm⟩
          · exact Or.inl ⟨_, by injection he with h; exact h.symm⟩
      | num c =>
        cases sp with
        | nonNum ty =>
            rw [intervene_mk?_nonNum_s] at he
            split_ifs at he
            · exact Or.inr ⟨_, by injection he with h; exact h.symm⟩
            · exact Or.inr ⟨_, by injection he with h; exact h.symm⟩
            · exact Or.inl ⟨_, by injection he with h; exact h.symm⟩
        | num s =>
          cases op with
          | nonNum ty =>
              rw [intervene_mk?_nonNum_o] at he
              split_ifs at he
              · exact Or.inr ⟨_, by injection he with h; exact h.symm⟩
              · exact Or.inr ⟨_, by injection he with h; exact h.symm⟩
              · exact Or.inr ⟨_, by injection he with h; exact h.symm⟩
              · exact Or.inl ⟨_, by injection he with h; exact h.symm⟩
          | num o =>
              rw [intervene_mk?_num] at he
              split_ifs at he
              · exact Or.inr ⟨_, by injection he with h; exact h.symm⟩
              · exact Or.inr ⟨_, by injection he with h; exact h.symm⟩
              · exact Or.inr ⟨_, by injection he with h; exact h.symm⟩
              · exact Or.inr ⟨_, by injection he with h; exact h.symm⟩
              · exact Or.inr ⟨_, by injection he with h; exact h.symm⟩

/-- Witness for C3 (amended): a fully valid parameter set is accepted. -/
theorem intervene_validation_witness :
    (Intervene.mk? ⟨.num 100, .num 8, .num (3/10), .num 0⟩).isOk = true :=
  (intervene_validation ⟨.num 100, .num 8, .num (3/10), .num 0⟩).1.2
    ⟨100, 8, 3/10, 0, rfl, by norm_num, by norm_num, by norm_num,
      by norm_num [TICKET_ALIVE_SECONDS], by norm_num [CONNECTION_ALIVE_SECONDS]⟩

/-- Counterexample to claim C3 as stated: the all-numeric input with
target timestamp −1 and both advances 0 satisfies none of the claim's
rejection conditions (the gap is 0 ≤ 30, the submission advance is
0 ≤ 10, neither advance is negative, every parameter is numeric), yet
construction raises ValueError: the code also rejects a negative target
timestamp. -/
theorem negative_target_also_rejected :
    Intervene.mk? ⟨.num (-1), .num 0, .num 0, .num 0⟩ =
      .error (.valueError
        "Invalid parameter. Detail:\n参数无效，给定的目标时间戳不能为负数。") ∧
    ¬ ((0 : Rat) - 0 > TICKET_ALIVE_SECONDS ∨
        (0 : Rat) > CONNECTION_ALIVE_SECONDS ∨ (0 : Rat) < 0) := by
  constructor
  · rw [intervene_mk?_num, if_pos (by norm_num)]
  · norm_num [TICKET_ALIVE_SECONDS, CONNECTION_ALIVE_SECONDS]

/-- Claim C1 (amended): for every list of N plan argument sets, `execute`
fills its internal `results` list with exactly N attempt outcomes, the
entry at index i being the worker outcome of the plan at index i —
regardless of the order in which attempts complete and regardless of which
attempts fail or succeed; the list is printed, and `execute` itself
returns Python None rather than the list. -/
theorem execute_results_index_aligned (sched : MultiReservationScheduler)
    (service : Nat → Intervene → Except PyErr Unit) (order : List Nat)
    (horder : order.Perm (List.range sched.num_jobs)) :
    (sched.execute service order).1 =
      (List.range sched.num_jobs).map
        (fun i => some (MultiReservationScheduler.worker
          (sched.intervene_args_all.getD i default) (service i))) ∧
    (sched.execute service order).1.length = sched.num_jobs ∧
    (sched.execute service order).2 = none := by
  have hfill := fillResults_eq
      (fun i => MultiReservationScheduler.worker
        (sched.intervene_args_all.getD i default) (service i))
      sched.num_jobs order horder
  simp only [MultiReservationScheduler.execute]
  refine ⟨hfill, ?_, by trivial⟩
  rw [hfill]
  simp

/-- Witness for C1 (amended): two plans completing out of order (job 1
first) still yield the index-aligned two-slot results list. -/
theorem execute_results_index_aligned_witness :
    (MultiReservationScheduler.execute
        ⟨[⟨.num 100, .num 5, .num 0, .num 0⟩,
          ⟨.num 100, .num 5, .num 1, .num 0⟩], 2⟩
        (fun _ _ => .ok ()) [1, 0]).1 =
      [some none, some none] := by
  have h := execute_results_index_aligned
      ⟨[⟨.num 100, .num 5, .num 0, .num 0⟩,
        ⟨.num 100, .num 5, .num 1, .num 0⟩], 2⟩
      (fun _ _ => .ok ()) [1, 0]
      (by rw [show List.range 2 = [0, 1] from rfl]; exact List.Perm.swap 0 1 [])
  rw [h.1, show List.range 2 = [0, 1] from rfl]
  norm_num [MultiReservationScheduler.worker, attemptBody, Intervene.mk?,
    Intervene.param_check, TICKET_ALIVE_SECONDS, CONNECTION_ALIVE_SECONDS,
    bind, Except.bind, pure, Except.pure, throw, throwThe, MonadExceptOf.throw]

/-- Counterexample to claim C1 as stated: `execute` is annotated `-> None`
and has no return statement, so at a concrete one-plan scheduler its
return value is Python None — not a list of attempt outcomes (those exist
only in the internal, printed `results` array). -/
theorem execute_returns_none :
    (MultiReservationScheduler.execute
        ⟨[⟨.num 100, .num 5, .num 1, .num 0⟩], 1⟩
        (fun _ _ => .ok ()) [0]).2 = none := rfl

/-- Claim C2: any error raised inside an attempt (plan construction or the
service run) is captured by `worker` and becomes that attempt's failure
outcome carrying the error's message (`str(e)`): it never escapes the
worker, and every sibling attempt's results slot still holds that
sibling's own worker outcome, for every completion order. -/
theorem attempt_error_isolated (sched : MultiReservationScheduler)
    (service : Nat → Intervene → Except PyErr Unit) (order : List Nat)
    (i : Nat) (e : PyErr)
    (horder : order.Perm (List.range sched.num_jobs))
    (hi : i < sched.num_jobs)
    (he : attemptBody (sched.intervene_args_all.getD i default) (service i) =
      .error e) :
    (sched.execute service order).1[i]? = some (some (some e.message)) ∧
    ∀ j, j < sched.num_jobs → j ≠ i →
      (sched.execute service order).1[j]? =
        some (some (MultiReservationScheduler.worker
          (sched.intervene_args_all.getD j default) (service j))) := by
  have hfill := fillResults_eq
      (fun i => MultiReservationScheduler.worker
        (sched.intervene_args_all.getD i default) (service i))
      sched.num_jobs order horder
  simp only [MultiReservationScheduler.execute]
  constructor
  · rw [hfill, List.getElem?_map, List.getElem?_range hi]
    simp only [Option.map_some', Option.some.injEq,
      MultiReservationScheduler.worker]
    rw [he]
  · intro j hj hij
    rw [hfill, List.getElem?_map, List.getElem?_range hj]
    rfl

/-- Witness for C2: of three attempts, attempt 1 fails with a runtime
error while attempts 0 and 2 succeed; under completion order 2, 0, 1 all
three slots still report their own outcome. -/
theorem attempt_error_isolated_witness :
    ((MultiReservationScheduler.execute
        ⟨[⟨.num 100, .num 5, .num 0, .num 0⟩,
          ⟨.num 100, .num 5, .num 1, .num 0⟩,
          ⟨.num 100, .num 5, .num 2, .num 0⟩], 3⟩
        (fun j _ => if j = 1 then .error (.runtimeError "boom") else .ok ())
        [2, 0, 1]).1[1]? = some (some (some "boom"))) ∧
    ((MultiReservationScheduler.execute
        ⟨[⟨.num 100, .num 5, .num 0, .num 0⟩,
          ⟨.num 100, .num 5, .num 1, .num 0⟩,
          ⟨.num 100, .num 5, .num 2, .num 0⟩], 3⟩
        (fun j _ => if j = 1 then .error (.runtimeError "boom") else .ok ())
        [2, 0, 1]).1[0]? = some (some none)) ∧
    ((MultiReservationScheduler.execute
        ⟨[⟨.num 100, .num 5, .num 0, .num 0⟩,
          ⟨.num 100, .num 5, .num 1, .num 0⟩,
          ⟨.num 100, .num 5, .num 2, .num 0⟩], 3⟩
        (fun j _ => if j = 1 then .error (.runtimeError "boom") else .ok ())
        [2, 0, 1]).1[2]? = some (some none)) := by
  have h := attempt_error_isolated
      ⟨[⟨.num 100, .num 5, .num 0, .num 0⟩,
        ⟨.num 100, .num 5, .num 1, .num 0⟩,
        ⟨.num 100, .num 5, .num 2, .num 0⟩], 3⟩
      (fun j _ => if j = 1 then .error (.runtimeError "boom") else .ok ())
      [2, 0, 1] 1 (.runtimeError "boom")
      (by decide) (by norm_num)
      (by norm_num [attemptBody, Intervene.mk?, Intervene.param_check,
        TICKET_ALIVE_SECONDS, CONNECTION_ALIVE_SECONDS, bind, Except.bind,
        pure, Except.pure, throw, throwThe, MonadExceptOf.throw])
  refine ⟨h.1, ?_, ?_⟩
  · rw [h.2 0 (by norm_num) (by norm_num)]
    norm_num [MultiReservationScheduler.worker, attemptBody, Intervene.mk?,
      Intervene.param_check, TICKET_ALIVE_SECONDS, CONNECTION_ALIVE_SECONDS,
      bind, Except.bind, pure, Except.pure, throw, throwThe,
      MonadExceptOf.throw]
  · rw [h.2 2 (by norm_num) (by norm_num)]
    norm_num [MultiReservationScheduler.worker, attemptBody, Intervene.mk?,
      Intervene.param_check, TICKET_ALIVE_SECONDS, CONNECTION_ALIVE_SECONDS,
      bind, Except.bind, pure, Except.pure, throw, throwThe,
      MonadExceptOf.throw]

/-- Claim C4 (amended): an invalid plan parameter set does not make the
scheduler's run fail.  `Intervene` is only constructed inside the
attempt's worker, whose try/except turns the validation error into that
attempt's ordinary outcome message (still before any network activity for
that attempt), and the scheduler constructor accepts any non-empty
advance list without validating plan parameters. -/
theorem plan_errors_stay_in_worker (intervene_args : InterveneArgs)
    (service : Intervene → Except PyErr Unit) (e : PyErr)
    (he : Intervene.mk? intervene_args = .error e) :
    MultiReservationScheduler.worker intervene_args service = some e.message ∧
    ∀ (t c o : PyParam) (subs : List PyParam), subs ≠ [] →
      (MultiReservationScheduler.mk? t c subs o).isOk = true := by
  constructor
  · simp only [MultiReservationScheduler.worker, attemptBody, he, bind,
      Except.bind]
  · intro t c o subs hsubs
    simp [MultiReservationScheduler.mk?, List.length_eq_zero, hsubs,
      Except.isOk, Except.toBool]

/-- Witness for C4 (amended) at a plan whose creation-to-submission gap
exceeds the 30 s ticket-liveness bound. -/
theorem plan_errors_stay_in_worker_witness :
    MultiReservationScheduler.worker ⟨.num 100, .num 35, .num 1, .num 0⟩
        (fun _ => .ok ()) =
      some "Invalid parameter. Detail:\n给定的创建请求和提交请求的时间间隔过长，建议设置为30秒以内。" := by
  have h := (plan_errors_stay_in_worker ⟨.num 100, .num 35, .num 1, .num 0⟩
      (fun _ => .ok ())
      (.valueError
        "Invalid parameter. Detail:\n给定的创建请求和提交请求的时间间隔过长，建议设置为30秒以内。")
      (by norm_num [Intervene.mk?, Intervene.param_check, TICKET_ALIVE_SECONDS,
        CONNECTION_ALIVE_SECONDS, bind, Except.bind, pure, Except.pure, throw,
        throwThe, MonadExceptOf.throw])).1
  simpa [PyErr.message] using h

/-- Counterexample to claim C4 as stated: with the single invalid plan
(submission_advance = 11 > 10) the scheduler constructor succeeds — no
pre-flight rejection — and the worker returns the validation error message
as an ordinary per-attempt outcome instead of letting it propagate out of
the scheduler. -/
theorem invalid_plan_is_ordinary_outcome :
    (MultiReservationScheduler.mk? (.num 100) (.num 5) [.num 11]
        (.num 0)).isOk = true ∧
    MultiReservationScheduler.worker ⟨.num 100, .num 5, .num 11, .num 0⟩
        (fun _ => .ok ()) =
      some "Invalid parameter. Detail:\n给定的提交请求的提前时间过长，建议设置为10秒以内。" := by
  constructor
  · rfl
  · norm_num [MultiReservationScheduler.worker, attemptBody, Intervene.mk?,
      Intervene.param_check, TICKET_ALIVE_SECONDS, CONNECTION_ALIVE_SECONDS,
      bind, Except.bind, pure, Except.pure, throw, throwThe,
      MonadExceptOf.throw, PyErr.message]

end LabSniper
